import Mathlib

/-!
Shallow embedding of the OTP-authentication and chatroom/message persistence
core of the application (sources: `src/hooks/useOTPAuth.ts`,
`src/components/OTPAuth.tsx`, `src/components/Dashboard.tsx` and
`src/components/Chat.tsx` inside `App.tsx`).

JavaScript strings are modelled as `List Char` (`Str`), with the string
operations the code uses (`trim`, `replace(/\D/g,'')`, `substring`,
`startsWith`, template-string number printing) defined explicitly.
`localStorage` is an association list from keys to typed values;
`sessionStorage` holds the two OTP keys.  Wall-clock instants
(`Date.now()`, `new Date().toISOString()`) are modelled by a natural
number supplied to each operation.
-/

namespace KuvakaChat

/-- JavaScript strings, modelled as lists of characters. -/
abbrev Str := List Char

/-- Coerce a Lean string literal to the model's string type. -/
def str (s : String) : Str := s.data

/-- JS `String.prototype.trim`: drop whitespace from both ends. -/
def jsTrim (s : Str) : Str :=
  ((s.dropWhile Char.isWhitespace).reverse.dropWhile Char.isWhitespace).reverse

/-- JS `value.replace(/\D/g, '')`: keep only decimal-digit characters. -/
def stripNonDigits (s : Str) : Str := s.filter Char.isDigit

/-- Boolean test that one string starts with another
(JS `String.prototype.startsWith`). -/
def strStarts : Str → Str → Bool
  | [], _ => true
  | _ :: _, [] => false
  | a :: p, b :: s => a = b && strStarts p s

/-- Little-endian base-10 digits, computed with explicit fuel so the kernel
can evaluate it on concrete inputs. -/
def toDigitsRev : Nat → Nat → List Nat
  | 0, _ => []
  | fuel + 1, n => if n = 0 then [] else n % 10 :: toDigitsRev fuel (n / 10)

theorem toDigitsRev_eq_digits : ∀ fuel n, n ≤ fuel → toDigitsRev fuel n = Nat.digits 10 n := by
  intro fuel
  induction fuel with
  | zero =>
      intro n hn
      have : n = 0 := Nat.le_zero.mp hn
      subst this
      simp [toDigitsRev]
  | succ f ih =>
      intro n hn
      by_cases h : n = 0
      · subst h; simp [toDigitsRev]
      · have hlt : n / 10 < n := Nat.div_lt_self (Nat.pos_of_ne_zero h) (by norm_num)
        have hdiv : n / 10 ≤ f := by omega
        rw [toDigitsRev, if_neg h, ih _ hdiv,
          ← Nat.digits_def' (by norm_num : 1 < 10) (Nat.pos_of_ne_zero h)]

/-- Decimal printing of a natural number, as JS template strings and
`Number.prototype.toString` produce it. -/
def natToStr (n : Nat) : Str :=
  if n = 0 then [Char.ofNat 48]
  else ((toDigitsRev n n).map (fun d => Char.ofNat (48 + d))).reverse

theorem natToStr_eq_digits (n : Nat) :
    natToStr n = if n = 0 then [Char.ofNat 48]
      else ((Nat.digits 10 n).map (fun d => Char.ofNat (48 + d))).reverse := by
  rw [natToStr, toDigitsRev_eq_digits n n (le_refl n)]

/-- Decoder used only to prove `natToStr` injective. -/
def decodeDigits (s : Str) : Nat :=
  Nat.ofDigits 10 (s.reverse.map (fun c => c.toNat - 48))

theorem digitChar_roundtrip : ∀ d, d < 10 → (Char.ofNat (48 + d)).toNat - 48 = d := by
  decide

theorem decode_natToStr (n : Nat) : decodeDigits (natToStr n) = n := by
  rw [natToStr_eq_digits]
  unfold decodeDigits
  by_cases h : n = 0
  · subst h; decide
  · simp only [h, if_false, List.reverse_reverse, List.map_map]
    have hmap : ∀ l : List Nat, (∀ d ∈ l, d < 10) →
        l.map ((fun c => c.toNat - 48) ∘ fun d => Char.ofNat (48 + d)) = l := by
      intro l
      induction l with
      | nil => intro _; rfl
      | cons d t ih =>
          intro hl
          have hd : d < 10 := hl d (List.mem_cons_self d t)
          simp only [List.map_cons, Function.comp_apply, digitChar_roundtrip d hd,
            ih (fun x hx => hl x (List.mem_cons_of_mem d hx))]
    rw [hmap _ (fun d hd => Nat.digits_lt_base (by norm_num) hd), Nat.ofDigits_digits]

theorem natToStr_injective : Function.Injective natToStr := by
  intro a b h
  have := congrArg decodeDigits h
  rwa [decode_natToStr, decode_natToStr] at this

/-- Digit characters are not whitespace. -/
theorem isWhitespace_eq_false_of_isDigit {c : Char} (h : c.isDigit = true) :
    c.isWhitespace = false := by
  by_contra hw
  have hw' : c.isWhitespace = true := by
    cases hws : c.isWhitespace
    · exact absurd hws hw
    · rfl
  have : ((c = ' ' ∨ c = '\t') ∨ c = '\r') ∨ c = '\n' := by
    simpa [Char.isWhitespace, Bool.or_eq_true, decide_eq_true_eq] using hw'
  rcases this with ((h1 | h1) | h1) | h1 <;> subst h1 <;> simp [Char.isDigit] at h

/-- Trimming a string whose characters are all non-whitespace is the identity. -/
theorem jsTrim_eq_self {s : Str} (h : ∀ c ∈ s, c.isWhitespace = false) :
    jsTrim s = s := by
  have h1 : s.dropWhile Char.isWhitespace = s := by
    cases s with
    | nil => rfl
    | cons a t => simp [List.dropWhile, h a (List.mem_cons_self a t)]
  have h2 : s.reverse.dropWhile Char.isWhitespace = s.reverse := by
    cases hrev : s.reverse with
    | nil => rfl
    | cons a t =>
        have ha : a ∈ s := by
          have : a ∈ s.reverse := by rw [hrev]; exact List.mem_cons_self a t
          exact List.mem_reverse.mp this
        simp [List.dropWhile, h a ha]
  unfold jsTrim
  rw [h1, h2, List.reverse_reverse]

/-- Trimming a digits-only string is the identity. -/
theorem jsTrim_stripNonDigits (s : Str) :
    jsTrim (stripNonDigits s) = stripNonDigits s := by
  apply jsTrim_eq_self
  intro c hc
  exact isWhitespace_eq_false_of_isDigit (List.of_mem_filter hc)

/-! ## Data model (`src/types`) -/

/-- The object passed to `onAuthenticated`/`login` and serialized to
`localStorage` under `otpUser`: `{ id, phone, countryCode }`.  The source's
`login` persists exactly this shape (without `createdAt`). -/
structure StoredUser where
  id : Str
  phone : Str
  countryCode : Str
deriving DecidableEq, Repr

/-- A `User` as held in application state: `{ id, phone, countryCode, createdAt }`. -/
structure User where
  id : Str
  phone : Str
  countryCode : Str
  createdAt : Nat
deriving DecidableEq, Repr

/-- A `Chatroom` record. -/
structure Chatroom where
  id : Str
  name : Str
  lastMessage : Option Str := none
  lastMessageTime : Option Nat := none
  userId : Str
  createdAt : Nat
deriving DecidableEq, Repr

/-- A `Message` record. -/
structure Message where
  id : Str
  content : Str
  isUser : Bool
  timestamp : Nat
  chatroomId : Str
  imageUrl : Option Str := none
deriving DecidableEq, Repr

/-- The `AuthState` of `useOTPAuth`. -/
structure AuthState where
  user : Option User
  isLoading : Bool
  isAuthenticated : Bool
deriving DecidableEq, Repr

/-! ## localStorage model

`localStorage` maps string keys to JSON strings.  The values the app ever
writes are a serialized `StoredUser` (under `otpUser`), a serialized chatroom
list (under `chatrooms_<userId>`) or a serialized message list (under
`messages_<chatroomId>`); `Val.raw` stands for an arbitrary string that does
not parse back into the expected shape (`JSON.parse` failure). -/

inductive Val where
  | userV : StoredUser → Val
  | roomsV : List Chatroom → Val
  | msgsV : List Message → Val
  | raw : Str → Val
deriving DecidableEq, Repr

/-- A key-value store (used for `localStorage`). -/
abbrev Store := List (Str × Val)

/-- `localStorage.getItem` (returns `null` as `none`). -/
def getItem (k : Str) : Store → Option Val
  | [] => none
  | (k', v) :: s => if k' = k then some v else getItem k s

/-- `localStorage.removeItem`. -/
def removeItem (k : Str) : Store → Store
  | [] => []
  | (k', v) :: s => if k' = k then removeItem k s else (k', v) :: removeItem k s

/-- `localStorage.setItem`. -/
def setItem (k : Str) (v : Val) (s : Store) : Store :=
  (k, v) :: removeItem k s

/-- The durable user-session key `otpUser`. -/
def otpUserKey : Str := str "otpUser"

/-- The key base `chatrooms_` of the per-user chatroom list. -/
def chatroomsKeyBase : Str := str "chatrooms_"

/-- The key base `messages_` of the per-chatroom message log. -/
def messagesKeyBase : Str := str "messages_"

/-- Key `chatrooms_<userId>`. -/
def chatroomsKey (userId : Str) : Str := chatroomsKeyBase ++ userId

/-- Key `messages_<chatroomId>`. -/
def messagesKey (chatroomId : Str) : Str := messagesKeyBase ++ chatroomId

theorem getItem_setItem_self (k : Str) (v : Val) (s : Store) :
    getItem k (setItem k v s) = some v := by
  simp [setItem, getItem]

theorem getItem_removeItem_self (k : Str) (s : Store) :
    getItem k (removeItem k s) = none := by
  induction s with
  | nil => rfl
  | cons p t ih =>
      obtain ⟨k', v⟩ := p
      by_cases h : k' = k
      · simpa [removeItem, h] using ih
      · simpa [removeItem, getItem, h] using ih

theorem getItem_removeItem_ne (k k' : Str) (s : Store) (h : k' ≠ k) :
    getItem k' (removeItem k s) = getItem k' s := by
  induction s with
  | nil => rfl
  | cons p t ih =>
      obtain ⟨k₀, v⟩ := p
      by_cases h0 : k₀ = k
      · have hk : ¬ k = k' := fun he => h he.symm
        simp [removeItem, getItem, h0, hk, ih]
      · by_cases h1 : k₀ = k'
        · simp [removeItem, getItem, h0, h1, h]
        · simp [removeItem, getItem, h0, h1, ih]

theorem getItem_setItem_ne (k k' : Str) (v : Val) (s : Store)
    (h : k' ≠ k) : getItem k' (setItem k v s) = getItem k' s := by
  have hne : ¬ k = k' := fun he => h he.symm
  simp [setItem, getItem, hne, getItem_removeItem_ne k k' s h]

/-! ## Session Manager (`src/hooks/useOTPAuth.ts`) -/

/-- The session-scoped stores: `sessionStorage` keys `otp` and `otpPhone`. -/
structure SessionStore where
  otp : Option Str
  otpPhone : Option Str
deriving DecidableEq, Repr

/-- checkAuthState (run once on mount): read `otpUser` from durable storage;
a present, parseable record authenticates with `createdAt` freshly set to the
current instant (`new Date().toISOString()`); a missing key or a record that
fails to parse (the `catch` branch) yields the unauthenticated state. -/
def checkAuthState (stored : Option Val) (now : Nat) : AuthState :=
  match stored with
  | some (Val.userV u) =>
      { user := some ⟨u.id, u.phone, u.countryCode, now⟩
        isLoading := false
        isAuthenticated := true }
  | _ =>
      { user := none, isLoading := false, isAuthenticated := false }

/-- The initial `authState` of `useOTPAuth`. -/
def initialAuthState : AuthState :=
  { user := none, isLoading := true, isAuthenticated := false }

/-- login: persist the received `{id, phone, countryCode}` object (the source
stringifies `user`, not `userWithTimestamp`), and set the in-memory state to
the user with `createdAt = now`. -/
def login (u : StoredUser) (now : Nat) (durable : Store) : Store × AuthState :=
  (setItem otpUserKey (Val.userV u) durable,
   { user := some ⟨u.id, u.phone, u.countryCode, now⟩
     isLoading := false
     isAuthenticated := true })

/-- Key predicate of the logout wipe: keys starting with `chatrooms_`
or `messages_`. -/
def isNamespacedKey (k : Str) : Bool :=
  strStarts chatroomsKeyBase k || strStarts messagesKeyBase k

/-- logout (the `useOTPAuth` variant that performs the full wipe): remove
`otpUser`, then remove every key starting with `chatrooms_` or `messages_`. -/
def logoutDurable (durable : Store) : Store :=
  (removeItem otpUserKey durable).filter (fun p => !isNamespacedKey p.1)

/-- logout also clears the session-scoped OTP keys and resets the auth state. -/
def logout (durable : Store) (_sess : SessionStore) :
    Store × SessionStore × AuthState :=
  (logoutDurable durable,
   { otp := none, otpPhone := none },
   { user := none, isLoading := false, isAuthenticated := false })

/-- Dashboard mount effect: load the chatroom list for a user from durable
storage; a missing (or non-list) record yields the initial empty list. -/
def loadChatrooms (durable : Store) (userId : Str) : List Chatroom :=
  match getItem (chatroomsKey userId) durable with
  | some (Val.roomsV rooms) => rooms
  | _ => []

/-! ## Auth State Machine (`src/components/OTPAuth.tsx`) -/

/-- The `step` field of `OTPState`. -/
inductive Step where
  | phone
  | otp
  | verified
deriving DecidableEq, Repr

/-- The `OTPState` of the `OTPAuth` component. -/
structure OTPState where
  step : Step
  phone : Str
  countryCode : Str
  otp : Str
  isLoading : Bool
  error : Option Str
  timeLeft : Nat
  canResend : Bool
deriving DecidableEq, Repr

/-- Error message shown when the phone number is empty. -/
def phoneErrMsg : Str := str "Please enter a valid phone number"

/-- Error message shown when the OTP input is not a 6-character entry. -/
def otpLenErrMsg : Str := str "Please enter a valid 6-digit OTP"

/-- Error message shown on OTP mismatch (the `VerificationError` of the spec). -/
def otpMismatchMsg : Str := str "Invalid OTP. Please try again."

/-- The `onChange` handler of the phone input: stores the value with all
non-digit characters stripped (`e.target.value.replace(/\D/g, '')`) and
clears the error. -/
def phoneOnChange (s : OTPState) (raw : Str) : OTPState :=
  { s with phone := stripNonDigits raw, error := none }

/-- OTP generation: `Math.floor(100000 + Math.random() * 900000)`, with
`Math.random()` a value in `[0, 1)` modelled as a rational. -/
def genOTP (r : ℚ) : ℤ := ⌊(100000 : ℚ) + r * 900000⌋

/-- The generated OTP as the string `.toString()` produces. -/
def genOTPStr (r : ℚ) : Str := natToStr (genOTP r).toNat

/-- sendOTP: reject a phone that is empty after trimming (error only, no other
change); otherwise store the generated code and target phone in
`sessionStorage`, move to the `otp` step and start the 60-second countdown.
The result is the state after the simulated 1500 ms send completes. -/
def sendOTP (s : OTPState) (sess : SessionStore) (rand : ℚ) :
    OTPState × SessionStore :=
  if jsTrim s.phone = [] then
    ({ s with error := some phoneErrMsg }, sess)
  else
    ({ s with step := Step.otp, isLoading := false, error := none,
              timeLeft := 60, canResend := false },
     { otp := some (genOTPStr rand),
       otpPhone := some (s.countryCode ++ s.phone) })

/-- Id `user_<Date.now()>` given to a freshly verified user. -/
def userId (now : Nat) : Str := str "user_" ++ natToStr now

/-- verifyOTP: reject an entry that is empty after trimming or not of length 6
(error only); otherwise compare the entry against the stored challenge code
(`sessionStorage.getItem('otp')`).  On match: persist the new user under
`otpUser`, clear both session keys and move to `verified`.  On mismatch: set
the error and stay put.  The result is the state after the simulated 1000 ms
verification completes. -/
def verifyOTP (s : OTPState) (sess : SessionStore) (durable : Store)
    (now : Nat) : OTPState × SessionStore × Store :=
  if jsTrim s.otp = [] ∨ s.otp.length ≠ 6 then
    ({ s with error := some otpLenErrMsg }, sess, durable)
  else if sess.otp = some s.otp then
    ({ s with step := Step.verified, isLoading := false, error := none },
     { otp := none, otpPhone := none },
     setItem otpUserKey (Val.userV ⟨userId now, s.phone, s.countryCode⟩) durable)
  else
    ({ s with isLoading := false, error := some otpMismatchMsg }, sess, durable)

/-! ## Chatroom Store and Message Store
(`Dashboard` and `ChatInterface` components in `src/App.tsx`) -/

/-- The pieces of state shared by `Dashboard` and `ChatInterface` that the
persistence layer touches: the dashboard's `chatrooms` array and
`localStorage`. -/
structure World where
  rooms : List Chatroom
  store : Store
deriving DecidableEq, Repr

/-- Chatroom id `room_<Date.now()>`. -/
def roomId (now : Nat) : Str := str "room_" ++ natToStr now

theorem roomId_injective : Function.Injective roomId := by
  intro a b h
  exact natToStr_injective (List.append_cancel_left h)

/-- saveChatrooms: persist the chatroom list under `chatrooms_<userId>` and
set the dashboard state (only runs with a user present). -/
def saveChatrooms (uid : Str) (rooms : List Chatroom) (w : World) : World :=
  { rooms := rooms, store := setItem (chatroomsKey uid) (Val.roomsV rooms) w.store }

/-- The chatroom record with its preview fields refreshed from the last
message (`lastMessage = content.substring(0, 100)`,
`lastMessageTime = timestamp`). -/
def updatedRoom (c : Chatroom) (last : Message) : Chatroom :=
  { c with lastMessage := some (last.content.take 100)
           lastMessageTime := some last.timestamp }

/-- saveMessages: persist the message list under `messages_<chatroom.id>`;
when the list is non-empty, pass the chatroom with refreshed preview to
`onUpdateChatroom`, which replaces the matching record in the dashboard's
list and persists that list via `saveChatrooms`. -/
def saveMessages (uid : Str) (c : Chatroom) (newMessages : List Message)
    (w : World) : World :=
  let store1 := setItem (messagesKey c.id) (Val.msgsV newMessages) w.store
  match newMessages.getLast? with
  | some last =>
      let u := updatedRoom c last
      let rooms' := w.rooms.map (fun r => if r.id = u.id then u else r)
      saveChatrooms uid rooms' { rooms := w.rooms, store := store1 }
  | none => { w with store := store1 }

/-- The in-memory state of the `ChatInterface` component. -/
structure ChatState where
  messages : List Message
  inputValue : Str
  isTyping : Bool
deriving DecidableEq, Repr

/-- Content of the simulated AI reply to a text message. -/
def aiTextContent : Str := str "This is a simulated AI response."

/-- Content of the simulated AI reply to an image message. -/
def aiImageContent : Str :=
  str "I can see you\x27ve shared an image! While I can\x27t analyze images in this demo, I\x27d be happy to help you with any questions about it."

/-- The user message built by `sendMessage`. -/
def userTextMessage (c : Chatroom) (input : Str) (now : Nat) : Message :=
  { id := str "msg_" ++ natToStr now
    content := jsTrim input
    isUser := true
    timestamp := now
    chatroomId := c.id }

/-- The AI reply built inside `sendMessage`'s timeout. -/
def aiTextReply (c : Chatroom) (now : Nat) : Message :=
  { id := str "msg_" ++ natToStr now ++ str "_ai"
    content := aiTextContent
    isUser := false
    timestamp := now
    chatroomId := c.id }

/-- sendMessage, synchronous part: with a non-blank input (and a user
present), append the user message to the log via `saveMessages`, clear the
input and set the typing flag. -/
def sendMessageNow (uid : Str) (c : Chatroom) (cs : ChatState) (w : World)
    (now : Nat) : ChatState × World :=
  if jsTrim cs.inputValue = [] then (cs, w)
  else
    let newMessages := cs.messages ++ [userTextMessage c cs.inputValue now]
    ({ messages := newMessages, inputValue := [], isTyping := true },
     saveMessages uid c newMessages w)

/-- sendMessage's 1000 ms timeout: the AI reply is added to the component's
`messages` state only (`setMessages(prev => [...prev, aiMessage])`); it is
not passed to `saveMessages`, so neither `localStorage` nor the chatroom
preview is touched.  If the component has unmounted, the state update is a
no-op and nothing observable happens at all. -/
def sendMessageTextFire (c : Chatroom) (cs : ChatState) (now : Nat) :
    ChatState :=
  { cs with messages := cs.messages ++ [aiTextReply c now], isTyping := false }

/-- The image message built by `handleImageUpload`'s `onload` handler. -/
def userImageMessage (c : Chatroom) (fileName imageUrl : Str) (now : Nat) :
    Message :=
  { id := str "msg_" ++ natToStr now ++ str "_img"
    content := str "Shared an image: " ++ fileName
    isUser := true
    timestamp := now
    chatroomId := c.id
    imageUrl := some imageUrl }

/-- The AI reply built inside `handleImageUpload`'s timeout. -/
def aiImageReply (c : Chatroom) (now : Nat) : Message :=
  { id := str "msg_" ++ natToStr now ++ str "_ai_img"
    content := aiImageContent
    isUser := false
    timestamp := now
    chatroomId := c.id }

/-- handleImageUpload, `onload` part: append the image message via
`saveMessages` and set the typing flag. -/
def handleImageUploadNow (uid : Str) (c : Chatroom) (fileName imageUrl : Str)
    (cs : ChatState) (w : World) (now : Nat) : ChatState × World :=
  let newMessages := cs.messages ++ [userImageMessage c fileName imageUrl now]
  ({ cs with messages := newMessages, isTyping := true },
   saveMessages uid c newMessages w)

/-- handleImageUpload's 1500 ms timeout: unlike the text path, the AI reply
goes through `saveMessages` (`saveMessages(finalMessages)`), which writes
`messages_<c.id>` and then runs `onUpdateChatroom`.  The timer's closures
are stale: `onUpdateChatroom` is the arrow function from the `Dashboard`
render that mounted the `ChatInterface`, and it closed over the `chatrooms`
array of that render — not the array current when the timer fires.  So the
fire-time effect is `saveMessages` applied to the current `localStorage`
paired with the captured chatroom list: `capturedRooms` is the pre-fire
(e.g. pre-deletion) array held by the closure, while `store` is the
storage as it stands when the timer fires. -/
def imageReplyFire (uid : Str) (c : Chatroom) (newMessages : List Message)
    (capturedRooms : List Chatroom) (store : Store) (now : Nat) : World :=
  saveMessages uid c (newMessages ++ [aiImageReply c now]) ⟨capturedRooms, store⟩

/-- deleteChatroom: drop the room from the dashboard list, persist the
shortened list, and remove the room's message log. -/
def deleteChatroom (uid roomIdArg : Str) (w : World) : World :=
  let w1 := saveChatrooms uid (w.rooms.filter (fun r => r.id ≠ roomIdArg)) w
  { w1 with store := removeItem (messagesKey roomIdArg) w1.store }

/-- The in-memory state of the `Dashboard` component. -/
structure DashState where
  chatrooms : List Chatroom
  searchQuery : Str
  selectedChatroom : Option Chatroom
  isCreating : Bool
  newChatroomName : Str
deriving DecidableEq, Repr

/-- createChatroom: with no user or a name that is blank after trimming, the
function returns without doing anything (no state change, no persisted
change, no error of any kind); otherwise it builds the room from the trimmed
name, prepends it, persists the list, resets the creation input and selects
the new room. -/
def createChatroom : Option StoredUser → Nat → DashState → Store →
    DashState × Store
  | none, _, ds, store => (ds, store)
  | some u, now, ds, store =>
      if jsTrim ds.newChatroomName = [] then (ds, store)
      else
        let newRoom : Chatroom :=
          { id := roomId now
            name := jsTrim ds.newChatroomName
            userId := u.id
            createdAt := now }
        let rooms' := newRoom :: ds.chatrooms
        ({ ds with chatrooms := rooms'
                   newChatroomName := []
                   isCreating := false
                   selectedChatroom := some newRoom },
         setItem (chatroomsKey u.id) (Val.roomsV rooms') store)

/-! ## Helper lemmas about keys and the store -/

theorem strStarts_append (p s : Str) : strStarts p (p ++ s) = true := by
  induction p with
  | nil => rfl
  | cons a t ih => simp [strStarts, ih]

theorem isNamespacedKey_chatrooms (uid : Str) :
    isNamespacedKey (chatroomsKey uid) = true := by
  simp [isNamespacedKey, chatroomsKey, strStarts_append]

theorem isNamespacedKey_messages (rid : Str) :
    isNamespacedKey (messagesKey rid) = true := by
  simp [isNamespacedKey, messagesKey, strStarts_append]

theorem chatroomsKey_ne_messagesKey (a b : Str) :
    chatroomsKey a ≠ messagesKey b := by
  intro h
  have h2 := congrArg List.head? h
  have ha : (chatroomsKey a).head? = some 'c' := rfl
  have hb : (messagesKey b).head? = some 'm' := rfl
  rw [ha, hb] at h2
  exact absurd (Option.some.inj h2) (by decide)

theorem otpUserKey_ne_chatroomsKey (a : Str) : otpUserKey ≠ chatroomsKey a := by
  intro h
  have h2 := congrArg List.head? h
  have ha : otpUserKey.head? = some 'o' := rfl
  have hb : (chatroomsKey a).head? = some 'c' := rfl
  rw [ha, hb] at h2
  exact absurd (Option.some.inj h2) (by decide)

theorem otpUserKey_ne_messagesKey (a : Str) : otpUserKey ≠ messagesKey a := by
  intro h
  have h2 := congrArg List.head? h
  have ha : otpUserKey.head? = some 'o' := rfl
  have hb : (messagesKey a).head? = some 'm' := rfl
  rw [ha, hb] at h2
  exact absurd (Option.some.inj h2) (by decide)

theorem getItem_filter_none (k : Str) (f : Str × Val → Bool) (s : Store)
    (h : getItem k s = none) : getItem k (s.filter f) = none := by
  induction s with
  | nil => rfl
  | cons p t ih =>
      obtain ⟨k₀, v⟩ := p
      by_cases h0 : k₀ = k
      · simp [getItem, h0] at h
      · have ht : getItem k t = none := by simpa [getItem, h0] using h
        by_cases hf : f (k₀, v) = true
        · simpa [List.filter, hf, getItem, h0] using ih ht
        · have hf' : f (k₀, v) = false := by
            cases hb : f (k₀, v)
            · rfl
            · exact absurd hb hf
          simpa [List.filter, hf'] using ih ht

theorem getItem_filter_dropped (k : Str) (f : Str × Val → Bool) (s : Store)
    (h : ∀ v, f (k, v) = false) : getItem k (s.filter f) = none := by
  induction s with
  | nil => rfl
  | cons p t ih =>
      obtain ⟨k₀, v⟩ := p
      by_cases h0 : k₀ = k
      · subst h0
        simpa [List.filter, h v] using ih
      · by_cases hf : f (k₀, v) = true
        · simpa [List.filter, hf, getItem, h0] using ih
        · have hf' : f (k₀, v) = false := by
            cases hb : f (k₀, v)
            · rfl
            · exact absurd hb hf
          simpa [List.filter, hf'] using ih

theorem mem_removeItem {p : Str × Val} {k : Str} {s : Store}
    (h : p ∈ removeItem k s) : p ∈ s ∧ p.1 ≠ k := by
  induction s with
  | nil => cases h
  | cons q t ih =>
      obtain ⟨k₀, v⟩ := q
      by_cases h0 : k₀ = k
      · have h' : p ∈ removeItem k t := by simpa [removeItem, h0] using h
        obtain ⟨hm, hne⟩ := ih h'
        exact ⟨List.mem_cons_of_mem _ hm, hne⟩
      · have h' : p = (k₀, v) ∨ p ∈ removeItem k t := by
          simpa [removeItem, h0] using h
        rcases h' with h' | h'
        · subst h'
          exact ⟨List.mem_cons_self _ _, h0⟩
        · obtain ⟨hm, hne⟩ := ih h'
          exact ⟨List.mem_cons_of_mem _ hm, hne⟩

/-! ## Concrete fixtures used by witnesses and counterexamples -/

/-- A sample authenticated user. -/
def sampleUser : StoredUser := ⟨str "user_1", str "5551234", str "+1"⟩

/-- A sample chatroom created at instant 1. -/
def room1 : Chatroom :=
  { id := roomId 1, name := str "Trip Planning", userId := str "user_1", createdAt := 1 }

/-- A second sample chatroom created at instant 2. -/
def room2 : Chatroom :=
  { id := roomId 2, name := str "Other", userId := str "user_1", createdAt := 2 }

/-! ## Claims -/

/-- Claim C9: the invariant `isAuthenticated == (user != null)` holds in the
initial `AuthState` and is preserved by every Session Manager operation:
`checkAuthState` (in all three branches, including the corrupt-record
recovery one), `login`, and `logout`. -/
theorem claim_C9_auth_invariant :
    (initialAuthState.isAuthenticated = initialAuthState.user.isSome) ∧
    (∀ stored now, (checkAuthState stored now).isAuthenticated =
      (checkAuthState stored now).user.isSome) ∧
    (∀ u now d, ((login u now d).2).isAuthenticated =
      ((login u now d).2).user.isSome) ∧
    (∀ d sess, ((logout d sess).2.2).isAuthenticated =
      ((logout d sess).2.2).user.isSome) := by
  refine ⟨rfl, ?_, ?_, ?_⟩
  · intro stored now
    cases stored with
    | none => rfl
    | some v => cases v <;> rfl
  · intro u now d; rfl
  · intro d sess; rfl

/-- Claim C7 counterexample: log in at instant 5, restore the persisted
session at instant 9.  The restored `User` is not field-for-field the user of
the login: `login` persists the record without `createdAt`, and
`checkAuthState` stamps the restore instant into `createdAt`, so the two
`createdAt` values differ (9 vs 5). -/
theorem claim_C7_cex :
    (checkAuthState (getItem otpUserKey (login sampleUser 5 []).1) 9).user ≠
      (login sampleUser 5 []).2.user ∧
    ((checkAuthState (getItem otpUserKey (login sampleUser 5 []).1) 9).user.map
      User.createdAt) = some 9 ∧
    ((login sampleUser 5 []).2.user.map User.createdAt) = some 5 := by decide

/-- Claim C7 (amended): the identity fields `id`, `phone` and `countryCode`
of a `User` are preserved verbatim from login through restore, but
`createdAt` is not: `login` persists the user without it, and every restore
regenerates `createdAt` as the restore instant. -/
theorem claim_C7_amended (u : StoredUser) (t1 t2 : Nat) (d : Store) :
    checkAuthState (getItem otpUserKey (login u t1 d).1) t2 =
      { user := some ⟨u.id, u.phone, u.countryCode, t2⟩
        isLoading := false
        isAuthenticated := true } := by
  show checkAuthState (getItem otpUserKey (setItem otpUserKey (Val.userV u) d)) t2 = _
  rw [getItem_setItem_self]
  rfl

/-- Claim C1: after `logout()`, durable storage holds no `otpUser` key and no
`chatrooms_*` or `messages_*` key for any namespace; a store that held only
app-managed keys is left literally empty (first-run); a subsequent restore
is unauthenticated and every user's chatroom list loads empty. -/
theorem claim_C1_logout_wipe (durable : Store) (sess : SessionStore) (now : Nat) :
    getItem otpUserKey (logout durable sess).1 = none ∧
    (∀ uid, getItem (chatroomsKey uid) (logout durable sess).1 = none) ∧
    (∀ rid, getItem (messagesKey rid) (logout durable sess).1 = none) ∧
    ((∀ p ∈ durable, p.1 = otpUserKey ∨ isNamespacedKey p.1 = true) →
      (logout durable sess).1 = []) ∧
    (checkAuthState (getItem otpUserKey (logout durable sess).1) now).isAuthenticated
      = false ∧
    (∀ uid, loadChatrooms (logout durable sess).1 uid = []) := by
  have hdropped : ∀ k, isNamespacedKey k = true →
      getItem k (logoutDurable durable) = none := by
    intro k hk
    apply getItem_filter_dropped
    intro v
    simp [hk]
  have h1 : getItem otpUserKey (logout durable sess).1 = none :=
    getItem_filter_none _ _ _ (getItem_removeItem_self _ _)
  have h2 : ∀ uid, getItem (chatroomsKey uid) (logout durable sess).1 = none :=
    fun uid => hdropped _ (isNamespacedKey_chatrooms uid)
  have h3 : ∀ rid, getItem (messagesKey rid) (logout durable sess).1 = none :=
    fun rid => hdropped _ (isNamespacedKey_messages rid)
  refine ⟨h1, h2, h3, ?_, ?_, ?_⟩
  · intro hall
    rw [List.eq_nil_iff_forall_not_mem]
    intro p hp
    have hp' : p ∈ (removeItem otpUserKey durable).filter
        (fun q => !isNamespacedKey q.1) := hp
    rw [List.mem_filter] at hp'
    obtain ⟨hmem, hkeep⟩ := hp'
    obtain ⟨hmem', hne⟩ := mem_removeItem hmem
    rcases hall p hmem' with h | h
    · exact hne h
    · simp [h] at hkeep
  · rw [h1]; rfl
  · intro uid
    unfold loadChatrooms
    rw [h2 uid]

/-- Claim C1 witness: a concrete three-key store (session, chatrooms,
messages) satisfies the app-managed-keys hypothesis and is wiped to the
empty store by logout. -/
theorem claim_C1_witness :
    (∀ p ∈ ([(otpUserKey, Val.userV sampleUser),
             (chatroomsKey (str "user_1"), Val.roomsV [room1]),
             (messagesKey (roomId 1), Val.msgsV [])] : Store),
        p.1 = otpUserKey ∨ isNamespacedKey p.1 = true) ∧
    (logout [(otpUserKey, Val.userV sampleUser),
             (chatroomsKey (str "user_1"), Val.roomsV [room1]),
             (messagesKey (roomId 1), Val.msgsV [])]
        ⟨some (str "123456"), some (str "+15551234")⟩).1 = [] := by
  refine ⟨by decide, ?_⟩
  exact (claim_C1_logout_wipe _ ⟨some (str "123456"), some (str "+15551234")⟩
    0).2.2.2.1 (by decide)

/-- Claim C2: with a live challenge (`step = otp`, stored code present) and a
6-digit entry, `verifyOTP` transitions to `verified` and persists a fresh
`User` if and only if the entry is string-equal to the stored challenge code;
for every other 6-digit entry it surfaces the verification error and leaves
the step at `otp`, the session challenge and durable storage untouched. -/
theorem claim_C2_verify_iff (s : OTPState) (sess : SessionStore) (d : Store)
    (now : Nat) (code : Str)
    (hstep : s.step = Step.otp)
    (hlive : sess.otp = some code)
    (hlen : s.otp.length = 6)
    (hdig : ∀ c ∈ s.otp, c.isDigit = true) :
    (((verifyOTP s sess d now).1.step = Step.verified ∧
      getItem otpUserKey (verifyOTP s sess d now).2.2 =
        some (Val.userV ⟨userId now, s.phone, s.countryCode⟩)) ↔ s.otp = code) ∧
    (s.otp ≠ code →
      (verifyOTP s sess d now).1.error = some otpMismatchMsg ∧
      (verifyOTP s sess d now).1.step = Step.otp ∧
      (verifyOTP s sess d now).2.1 = sess ∧
      (verifyOTP s sess d now).2.2 = d) := by
  have htrim : jsTrim s.otp = s.otp :=
    jsTrim_eq_self (fun c hc => isWhitespace_eq_false_of_isDigit (hdig c hc))
  have hguard : ¬ (jsTrim s.otp = [] ∨ s.otp.length ≠ 6) := by
    rw [htrim]
    push_neg
    refine ⟨?_, hlen⟩
    intro h
    rw [h] at hlen
    simp at hlen
  unfold verifyOTP
  rw [if_neg hguard]
  by_cases heq : s.otp = code
  · subst heq
    rw [if_pos hlive]
    refine ⟨⟨fun _ => rfl, fun _ => ⟨rfl, getItem_setItem_self _ _ _⟩⟩, ?_⟩
    intro hne
    exact absurd rfl hne
  · have hmiss : ¬ sess.otp = some s.otp := by
      rw [hlive]
      intro hc
      exact heq (Option.some.inj hc).symm
    rw [if_neg hmiss]
    refine ⟨⟨?_, fun h => absurd h heq⟩, fun _ => ⟨rfl, hstep, rfl, rfl⟩⟩
    rintro ⟨hv, -⟩
    rw [hstep] at hv
    exact absurd hv (by decide)

/-- Claim C2 witness: a concrete live challenge `123456` with the matching
entry verifies, by the main theorem, iff the strings match (they do here). -/
theorem claim_C2_witness :
    (str "123456").length = 6 ∧
    (∀ c ∈ str "123456", c.isDigit = true) ∧
    (((verifyOTP ⟨Step.otp, str "5551234", str "+1", str "123456", true, none, 60, false⟩
        ⟨some (str "123456"), some (str "+15551234")⟩ [] 7).1.step = Step.verified ∧
      getItem otpUserKey
        (verifyOTP ⟨Step.otp, str "5551234", str "+1", str "123456", true, none, 60, false⟩
          ⟨some (str "123456"), some (str "+15551234")⟩ [] 7).2.2 =
        some (Val.userV ⟨userId 7, str "5551234", str "+1"⟩)) ↔
      str "123456" = str "123456") := by
  refine ⟨by decide, by decide, ?_⟩
  exact (claim_C2_verify_iff
    ⟨Step.otp, str "5551234", str "+1", str "123456", true, none, 60, false⟩
    ⟨some (str "123456"), some (str "+15551234")⟩ [] 7 (str "123456")
    rfl rfl (by decide) (by decide)).1

/-- Claim C8: the phone input handler stores the value with all non-digit
characters stripped; `sendOTP` on a digits-only-empty phone sets only the
validation error (same step, no challenge written), and on a non-empty one
stores the challenge against the digits-only phone. -/
theorem claim_C8_strip (s : OTPState) (sess : SessionStore) (raw : Str) (rand : ℚ) :
    (phoneOnChange s raw).phone = stripNonDigits raw ∧
    (stripNonDigits raw = [] →
      sendOTP (phoneOnChange s raw) sess rand =
        ({ phoneOnChange s raw with error := some phoneErrMsg }, sess)) ∧
    (stripNonDigits raw ≠ [] →
      (sendOTP (phoneOnChange s raw) sess rand).1.step = Step.otp ∧
      (sendOTP (phoneOnChange s raw) sess rand).2.otp = some (genOTPStr rand) ∧
      (sendOTP (phoneOnChange s raw) sess rand).2.otpPhone =
        some (s.countryCode ++ stripNonDigits raw)) := by
  refine ⟨rfl, ?_, ?_⟩
  · intro h
    have hc : jsTrim (phoneOnChange s raw).phone = [] := by
      show jsTrim (stripNonDigits raw) = []
      rw [jsTrim_stripNonDigits, h]
    unfold sendOTP
    rw [if_pos hc]
  · intro h
    have hc : ¬ jsTrim (phoneOnChange s raw).phone = [] := by
      show ¬ jsTrim (stripNonDigits raw) = []
      rw [jsTrim_stripNonDigits]
      exact h
    unfold sendOTP
    rw [if_neg hc]
    exact ⟨rfl, rfl, rfl⟩

/-- Claim C8 witness: the input `(555) 123-4567` strips to `5551234567`,
which is non-empty, so by the main theorem the stored challenge phone is the
country code followed by the digits-only form. -/
theorem claim_C8_witness :
    stripNonDigits (str "(555) 123-4567") ≠ [] ∧
    stripNonDigits (str "(555) 123-4567") = str "5551234567" ∧
    (sendOTP (phoneOnChange ⟨Step.phone, [], str "+1", [], false, none, 0, true⟩
        (str "(555) 123-4567")) ⟨none, none⟩ 0).2.otpPhone =
      some (str "+1" ++ stripNonDigits (str "(555) 123-4567")) := by
  refine ⟨by decide, by decide, ?_⟩
  exact ((claim_C8_strip ⟨Step.phone, [], str "+1", [], false, none, 0, true⟩
    ⟨none, none⟩ (str "(555) 123-4567") 0).2.2 (by decide)).2.2

theorem digitChar_isDigit : ∀ d, d < 10 → (Char.ofNat (48 + d)).isDigit = true := by
  decide

/-- Claim C10: for every random-source value in `[0, 1)`, the generated OTP
value lies in `[100000, 999999]`, its decimal string has exactly 6
characters, all of them digits — so it passes `verifyOTP`'s 6-digit guard
(non-blank after trimming, length 6). -/
theorem claim_C10_otp_shape (r : ℚ) (h0 : 0 ≤ r) (h1 : r < 1) :
    100000 ≤ genOTP r ∧ genOTP r ≤ 999999 ∧
    (genOTPStr r).length = 6 ∧
    (∀ c ∈ genOTPStr r, c.isDigit = true) ∧
    jsTrim (genOTPStr r) = genOTPStr r := by
  have hlow : (100000 : ℤ) ≤ genOTP r := by
    rw [genOTP, Int.le_floor]
    push_cast
    nlinarith
  have hupper : genOTP r < 1000000 := by
    rw [genOTP, Int.floor_lt]
    push_cast
    nlinarith
  have hnlow : 100000 ≤ (genOTP r).toNat := by omega
  have hnhigh : (genOTP r).toNat ≤ 999999 := by omega
  have hnz : (genOTP r).toNat ≠ 0 := by omega
  have hpow5 : (10 : ℕ) ^ 5 = 100000 := by norm_num
  have hpow6 : (10 : ℕ) ^ (5 + 1) = 1000000 := by norm_num
  have hlen : (genOTPStr r).length = 6 := by
    rw [genOTPStr, natToStr_eq_digits, if_neg hnz, List.length_reverse,
      List.length_map, Nat.digits_len 10 _ (by norm_num) hnz,
      Nat.log_eq_of_pow_le_of_lt_pow (by omega : 10 ^ 5 ≤ (genOTP r).toNat)
        (by omega : (genOTP r).toNat < 10 ^ (5 + 1))]
  have hdig : ∀ c ∈ genOTPStr r, c.isDigit = true := by
    intro c hc
    rw [genOTPStr, natToStr_eq_digits, if_neg hnz, List.mem_reverse,
      List.mem_map] at hc
    obtain ⟨dgt, hd, rfl⟩ := hc
    exact digitChar_isDigit dgt (Nat.digits_lt_base (by norm_num) hd)
  refine ⟨hlow, by omega, hlen, hdig, ?_⟩
  exact jsTrim_eq_self (fun c hc => isWhitespace_eq_false_of_isDigit (hdig c hc))

/-- Claim C10 witness: the random value 0 is in `[0, 1)` and the theorem
applies to it. -/
theorem claim_C10_witness :
    (0 : ℚ) ≤ 0 ∧ (0 : ℚ) < 1 ∧
    (100000 ≤ genOTP 0 ∧ genOTP 0 ≤ 999999 ∧
     (genOTPStr 0).length = 6 ∧
     (∀ c ∈ genOTPStr 0, c.isDigit = true) ∧
     jsTrim (genOTPStr 0) = genOTPStr 0) := by
  exact ⟨le_refl 0, by norm_num, claim_C10_otp_shape 0 (le_refl 0) (by norm_num)⟩

/-- Claim C5: persisting an appended message via `saveMessages` writes the
full log under `messages_<id>` and, in the same operation, replaces the
chatroom's record with one whose `lastMessage` is the first 100 characters
of the appended content and whose `lastMessageTime` is its timestamp,
persisting the room list too; every room with a different id is left in the
list untouched. -/
theorem claim_C5_preview (uid : Str) (c : Chatroom) (msgs : List Message)
    (m : Message) (w : World) :
    getItem (messagesKey c.id) (saveMessages uid c (msgs ++ [m]) w).store =
      some (Val.msgsV (msgs ++ [m])) ∧
    (saveMessages uid c (msgs ++ [m]) w).rooms =
      w.rooms.map (fun r => if r.id = c.id then updatedRoom c m else r) ∧
    (updatedRoom c m).lastMessage = some (m.content.take 100) ∧
    (updatedRoom c m).lastMessageTime = some m.timestamp ∧
    getItem (chatroomsKey uid) (saveMessages uid c (msgs ++ [m]) w).store =
      some (Val.roomsV ((saveMessages uid c (msgs ++ [m]) w).rooms)) ∧
    (∀ r ∈ w.rooms, r.id ≠ c.id → r ∈ (saveMessages uid c (msgs ++ [m]) w).rooms) := by
  have hlast : (msgs ++ [m]).getLast? = some m := List.getLast?_concat msgs
  unfold saveMessages
  rw [hlast]
  refine ⟨?_, rfl, rfl, rfl, ?_, ?_⟩
  · show getItem (messagesKey c.id)
        (setItem (chatroomsKey uid)
          (Val.roomsV (w.rooms.map (fun r => if r.id = c.id then updatedRoom c m else r)))
          (setItem (messagesKey c.id) (Val.msgsV (msgs ++ [m])) w.store)) =
      some (Val.msgsV (msgs ++ [m]))
    rw [getItem_setItem_ne _ _ _ _ (chatroomsKey_ne_messagesKey uid c.id).symm]
    exact getItem_setItem_self _ _ _
  · exact getItem_setItem_self _ _ _
  · intro r hr hne
    show r ∈ w.rooms.map (fun x => if x.id = c.id then updatedRoom c m else x)
    exact List.mem_map.mpr ⟨r, hr, by simp [if_neg hne]⟩

/-- Claim C5 witness: appending `Hello` to the first of two rooms leaves the
second room (distinct id) in the list unchanged. -/
theorem claim_C5_witness :
    room2 ∈ ([room1, room2] : List Chatroom) ∧ room2.id ≠ room1.id ∧
    room2 ∈ (saveMessages (str "user_1") room1
      ([] ++ [userTextMessage room1 (str "Hello") 3]) ⟨[room1, room2], []⟩).rooms := by
  refine ⟨by decide, by decide, ?_⟩
  exact (claim_C5_preview (str "user_1") room1 []
    (userTextMessage room1 (str "Hello") 3)
    ⟨[room1, room2], []⟩).2.2.2.2.2 room2 (by decide) (by decide)

/-- Claim C3, evaluated at the failing input: in a fresh chatroom, sending
the text message `Hello` persists the user message, and after the delay the
component's in-memory list holds exactly the user message followed by the
non-user reply — but the persisted log still holds exactly one message: the
timeout adds the reply through `setMessages` only and never calls
`saveMessages`, so the reply is never written to `messages_<id>`. -/
theorem claim_C3_text_reply_unpersisted :
    (sendMessageTextFire room1
      (sendMessageNow (str "user_1") room1 ⟨[], str "Hello", false⟩
        ⟨[room1], []⟩ 3).1 4).messages.map Message.isUser = [true, false] ∧
    (sendMessageTextFire room1
      (sendMessageNow (str "user_1") room1 ⟨[], str "Hello", false⟩
        ⟨[room1], []⟩ 3).1 4).messages.length = 2 ∧
    getItem (messagesKey room1.id)
      (sendMessageNow (str "user_1") room1 ⟨[], str "Hello", false⟩
        ⟨[room1], []⟩ 3).2.store =
      some (Val.msgsV [userTextMessage room1 (str "Hello") 3]) := by decide

/-- Claim C4 counterexample: upload an image into a room, delete the room
(which removes `messages_<id>` and persists the emptied room list), then let
the 1500 ms reply timer fire with the chatroom array its closure captured
before the deletion: the timer's `saveMessages` writes the reply list back
under the deleted room's key — so a write to the now-nonexistent log does
happen — and on top of that the stale `onUpdateChatroom` re-persists the
captured list, putting the deleted room back. -/
theorem claim_C4_cex :
    getItem (messagesKey room1.id)
      (deleteChatroom (str "user_1") room1.id
        (handleImageUploadNow (str "user_1") room1 (str "cat.png")
          (str "data:image/png;base64,AAAA") ⟨[], [], false⟩
          ⟨[room1], []⟩ 3).2).store = none ∧
    (deleteChatroom (str "user_1") room1.id
      (handleImageUploadNow (str "user_1") room1 (str "cat.png")
        (str "data:image/png;base64,AAAA") ⟨[], [], false⟩
        ⟨[room1], []⟩ 3).2).rooms = [] ∧
    getItem (messagesKey room1.id)
      (imageReplyFire (str "user_1") room1
        (handleImageUploadNow (str "user_1") room1 (str "cat.png")
          (str "data:image/png;base64,AAAA") ⟨[], [], false⟩
          ⟨[room1], []⟩ 3).1.messages
        (handleImageUploadNow (str "user_1") room1 (str "cat.png")
          (str "data:image/png;base64,AAAA") ⟨[], [], false⟩
          ⟨[room1], []⟩ 3).2.rooms
        (deleteChatroom (str "user_1") room1.id
          (handleImageUploadNow (str "user_1") room1 (str "cat.png")
            (str "data:image/png;base64,AAAA") ⟨[], [], false⟩
            ⟨[room1], []⟩ 3).2).store 5).store ≠ none ∧
    (imageReplyFire (str "user_1") room1
      (handleImageUploadNow (str "user_1") room1 (str "cat.png")
        (str "data:image/png;base64,AAAA") ⟨[], [], false⟩
        ⟨[room1], []⟩ 3).1.messages
      (handleImageUploadNow (str "user_1") room1 (str "cat.png")
        (str "data:image/png;base64,AAAA") ⟨[], [], false⟩
        ⟨[room1], []⟩ 3).2.rooms
      (deleteChatroom (str "user_1") room1.id
        (handleImageUploadNow (str "user_1") room1 (str "cat.png")
          (str "data:image/png;base64,AAAA") ⟨[], [], false⟩
          ⟨[room1], []⟩ 3).2).store 5).rooms.map Chatroom.id = [room1.id] := by
  decide

/-- Claim C4 (amended): after a chatroom is deleted its log key is absent;
the text-reply timer touches only component state (no durable write, no
error), so on that path the reply is discarded silently; the image-reply
timer, by contrast, still runs `saveMessages` through its stale closures:
it writes the final message list back under the deleted room's key, and
`onUpdateChatroom` maps over the chatroom array captured before the
deletion and re-persists it — so if the deleted room was in the captured
array, its preview-updated record is back in both dashboard state and the
persisted `chatrooms_<uid>` list. -/
theorem claim_C4_amended (uid : Str) (c : Chatroom) (msgs : List Message)
    (capturedRooms : List Chatroom) (w : World) (t : Nat) :
    getItem (messagesKey c.id) (deleteChatroom uid c.id w).store = none ∧
    (∀ cs now2, sendMessageTextFire c cs now2 =
      { cs with messages := cs.messages ++ [aiTextReply c now2], isTyping := false }) ∧
    getItem (messagesKey c.id)
      (imageReplyFire uid c msgs capturedRooms
        (deleteChatroom uid c.id w).store t).store =
      some (Val.msgsV (msgs ++ [aiImageReply c t])) ∧
    (imageReplyFire uid c msgs capturedRooms
      (deleteChatroom uid c.id w).store t).rooms =
      capturedRooms.map
        (fun r => if r.id = c.id then updatedRoom c (aiImageReply c t) else r) ∧
    getItem (chatroomsKey uid)
      (imageReplyFire uid c msgs capturedRooms
        (deleteChatroom uid c.id w).store t).store =
      some (Val.roomsV ((imageReplyFire uid c msgs capturedRooms
        (deleteChatroom uid c.id w).store t).rooms)) ∧
    (c ∈ capturedRooms →
      updatedRoom c (aiImageReply c t) ∈
        (imageReplyFire uid c msgs capturedRooms
          (deleteChatroom uid c.id w).store t).rooms) := by
  refine ⟨getItem_removeItem_self _ _, fun _ _ => rfl, ?_, ?_, ?_, ?_⟩
  · unfold imageReplyFire saveMessages
    rw [List.getLast?_concat]
    show getItem (messagesKey c.id)
        (setItem (chatroomsKey uid)
          (Val.roomsV (capturedRooms.map
            (fun r => if r.id = c.id then updatedRoom c (aiImageReply c t) else r)))
          (setItem (messagesKey c.id) (Val.msgsV (msgs ++ [aiImageReply c t]))
            (deleteChatroom uid c.id w).store)) =
      some (Val.msgsV (msgs ++ [aiImageReply c t]))
    rw [getItem_setItem_ne _ _ _ _ (chatroomsKey_ne_messagesKey uid c.id).symm]
    exact getItem_setItem_self _ _ _
  · unfold imageReplyFire saveMessages
    rw [List.getLast?_concat]
    rfl
  · unfold imageReplyFire saveMessages
    rw [List.getLast?_concat]
    exact getItem_setItem_self _ _ _
  · intro hc
    unfold imageReplyFire saveMessages
    rw [List.getLast?_concat]
    show updatedRoom c (aiImageReply c t) ∈
      capturedRooms.map
        (fun x => if x.id = c.id then updatedRoom c (aiImageReply c t) else x)
    exact List.mem_map.mpr ⟨c, hc, by simp⟩

/-- Claim C4 witness: with the one-room pre-deletion list captured by the
closure, the deleted room's refreshed record is a member of the re-persisted
list after the image-reply timer fires. -/
theorem claim_C4_witness :
    room1 ∈ ([room1] : List Chatroom) ∧
    updatedRoom room1 (aiImageReply room1 5) ∈
      (imageReplyFire (str "user_1") room1 [] [room1]
        (deleteChatroom (str "user_1") room1.id ⟨[room1], []⟩).store 5).rooms := by
  refine ⟨by decide, ?_⟩
  exact (claim_C4_amended (str "user_1") room1 [] [room1]
    ⟨[room1], []⟩ 5).2.2.2.2.2 (by decide)

/-- Claim C6 counterexample: `createChatroom` with an empty or
whitespace-only name leaves the dashboard state and durable storage exactly
as they were — a silent no-op with no error indication of any kind, not a
surfaced `ValidationError` (the `Dashboard` component has no error field and
the function's guard simply returns). -/
theorem claim_C6_cex :
    createChatroom (some sampleUser) 7 ⟨[], [], none, true, []⟩ [] =
      (⟨[], [], none, true, []⟩, []) ∧
    createChatroom (some sampleUser) 7 ⟨[], [], none, true, str "   "⟩ [] =
      (⟨[], [], none, true, str "   "⟩, []) := by decide

/-- Claim C6 (amended): creation trims the supplied name; blank names are
silently ignored (no chatroom added, no error surfaced, no write); a
non-blank name yields a room named by the trimmed input with
`id = room_<now>`, `createdAt = now`, prepended to the list, persisted and
selected; rooms created at distinct instants get distinct ids. -/
theorem claim_C6_amended (u : StoredUser) (now : Nat) (ds : DashState)
    (st : Store) :
    (jsTrim ds.newChatroomName = [] →
      createChatroom (some u) now ds st = (ds, st)) ∧
    (jsTrim ds.newChatroomName ≠ [] →
      (createChatroom (some u) now ds st).1.chatrooms =
        { id := roomId now, name := jsTrim ds.newChatroomName,
          userId := u.id, createdAt := now } :: ds.chatrooms ∧
      getItem (chatroomsKey u.id) (createChatroom (some u) now ds st).2 =
        some (Val.roomsV ((createChatroom (some u) now ds st).1.chatrooms)) ∧
      (createChatroom (some u) now ds st).1.selectedChatroom =
        some { id := roomId now, name := jsTrim ds.newChatroomName,
               userId := u.id, createdAt := now }) ∧
    (∀ n1 n2 : Nat, n1 ≠ n2 → roomId n1 ≠ roomId n2) := by
  refine ⟨?_, ?_, ?_⟩
  · intro h
    simp only [createChatroom]
    rw [if_pos h]
  · intro h
    simp only [createChatroom]
    rw [if_neg h]
    exact ⟨rfl, getItem_setItem_self _ _ _, rfl⟩
  · intro n1 n2 hne hc
    exact hne (roomId_injective hc)

/-- Claim C6 witness: the name `" Demo "` trims to `"Demo"` and, by the main
theorem, creates a room named exactly `"Demo"` at the head of the list. -/
theorem claim_C6_witness :
    jsTrim (str " Demo ") = str "Demo" ∧
    jsTrim (str " Demo ") ≠ [] ∧
    (createChatroom (some sampleUser) 7 ⟨[], [], none, true, str " Demo "⟩ []).1.chatrooms =
      { id := roomId 7, name := jsTrim (str " Demo "),
        userId := sampleUser.id, createdAt := 7 } :: [] := by
  refine ⟨by decide, by decide, ?_⟩
  exact ((claim_C6_amended sampleUser 7 ⟨[], [], none, true, str " Demo "⟩ []).2.1
    (by decide)).1

end KuvakaChat
